import Mathlib

/-!
Verification of the result ingestion and normalization pipeline of
`src/app.py` (a Streamlit search tool for Brazilian procurement notices).

The Python functions are shallowly embedded as executable Lean
definitions over a JSON value type.  Python dictionaries become
association lists, Python truthiness becomes `truthy`, and the pieces of
stateful / network code that the claims mention are modelled by passing
the fetch oracle explicitly, together with a log of the pages requested
and of the user-facing messages emitted.
-/

/-- A JSON value as produced by `response.json()` in the source.
Numbers are modelled as integers (no claim depends on the numeric
value of a float).  Python `None` and JSON `null` both map to `null`. -/
inductive JVal where
  | null
  | bool (b : Bool)
  | num (n : Int)
  | str (s : String)
  | arr (xs : List JVal)
  | obj (fields : List (String × JVal))

/-- A raw upstream item: a Python dict, i.e. a key-value mapping.
Keys of a Python dict are unique, so lookup of the first matching key
agrees with dict lookup. -/
abbrev RawItem := List (String × JVal)

/-- Python truthiness of a JSON value: `None`, `False`, `0`, `""`,
`[]` and `\x7b\x7d` are falsy, everything else is truthy. -/
def truthy : JVal → Bool
  | .null => false
  | .bool b => b
  | .num n => n != 0
  | .str s => s ≠ ""
  | .arr xs => !xs.isEmpty
  | .obj fs => !fs.isEmpty

/-- `d.get(k)` without default: `some v` when the key is present. -/
def jget (item : RawItem) (k : String) : Option JVal :=
  (item.find? (fun p => p.1 == k)).map (·.2)

/-- `d.get(k)` in Python returns `None` on a missing key. -/
def jgetN (item : RawItem) (k : String) : JVal :=
  (jget item k).getD .null

/-- `d.get(k, "")`: lookup with the empty string as default. -/
def jgetD (item : RawItem) (k : String) : JVal :=
  (jget item k).getD (.str "")

/-- Python `a or b`: `a` when truthy, else `b`. -/
def pyOr (a b : JVal) : JVal :=
  if truthy a then a else b

/-- First truthy value of a list, or the given default; the evaluation
scheme of a Python chain `a or b or ... or default`. -/
def firstTruthyD (dflt : JVal) : List JVal → JVal
  | [] => dflt
  | a :: rest => if truthy a then a else firstTruthyD dflt rest

/-- `_primeiro_valor(*args)` from `src/app.py`: the first truthy
argument, or `""` when none is truthy. -/
def _primeiro_valor (args : List JVal) : JVal :=
  firstTruthyD (.str "") args

/-- The fixed candidate container keys probed by `_items_from_json`,
in source order. -/
def candidateKeys : List String :=
  ["items", "results", "conteudo", "licitacoes", "data",
   "documents", "documentos", "content", "resultados"]

/-- Helper for `_items_from_json`: walk the candidate keys in order and
return the first value that is itself a list. -/
def firstListVal (fs : List (String × JVal)) : List String → Option (List JVal)
  | [] => none
  | k :: ks =>
    match jget fs k with
    | some (.arr xs) => some xs
    | _ => firstListVal fs ks

/-- `_items_from_json(js)` from `src/app.py`: a dict is probed for the
first candidate key holding a list; a list is returned as-is; anything
else yields `[]`.  (In the source the dict branch is tested first; a
dict with no list-valued candidate key falls through to the final
`return []`.) -/
def _items_from_json : JVal → List JVal
  | .obj fs => (firstListVal fs candidateKeys).getD []
  | .arr xs => xs
  | _ => []

mutual

/-- Python `repr` of a JSON value, used by `str()` on non-string
values.  The exact rendering only matters up to injectivity on the
structured identifier fields; it follows Python conventions (`None`,
`True`, quoted strings, bracketed containers). -/
def jvalRepr : JVal → String
  | .null => "None"
  | .bool true => "True"
  | .bool false => "False"
  | .num n => toString n
  | .str s => "\x27" ++ s ++ "\x27"
  | .arr xs => "[" ++ jvalReprSeq xs ++ "]"
  | .obj fs => "\x7b" ++ jvalReprFields fs ++ "\x7d"

/-- Comma-separated `repr` of the elements of a Python list. -/
def jvalReprSeq : List JVal → String
  | [] => ""
  | [x] => jvalRepr x
  | x :: rest => jvalRepr x ++ ", " ++ jvalReprSeq rest

/-- Comma-separated `repr` of the entries of a Python dict. -/
def jvalReprFields : List (String × JVal) → String
  | [] => ""
  | [(k, v)] => "\x27" ++ k ++ "\x27: " ++ jvalRepr v
  | (k, v) :: rest => "\x27" ++ k ++ "\x27: " ++ jvalRepr v ++ ", " ++ jvalReprFields rest

end

/-- Python `str(x)`: a string is returned as-is, any other value is
rendered by `repr`-style conventions. -/
def pyStr : JVal → String
  | .str s => s
  | v => jvalRepr v

/-- Python `s.strip()`: drop whitespace from both ends. -/
def pyStrip (s : String) : String :=
  String.mk (((s.data.dropWhile Char.isWhitespace).reverse.dropWhile
    Char.isWhitespace).reverse)

/-- Python `s.lstrip("/")`: drop leading slash characters. -/
def lstripSlash (s : String) : String :=
  String.mk (s.data.dropWhile (· == '/'))

/-- Python `s.lower()` (ASCII case folding, which covers the
comparisons made by the source). -/
def lowerStr (s : String) : String :=
  String.mk (s.data.map Char.toLower)

/-- Python `s.upper()` (ASCII case folding). -/
def upperStr (s : String) : String :=
  String.mk (s.data.map Char.toUpper)

/-- Python `s.isdigit()` restricted to ASCII digits: non-empty and all
characters are digits. -/
def isdigitStr (s : String) : Bool :=
  !s.isEmpty && s.data.all Char.isDigit

/-- Python `s.startswith("http")`. -/
def startsWithHttp (s : String) : Bool :=
  ("http".data).isPrefixOf s.data

/-- Does `pat` occur as a contiguous run inside `s`?  Models the
substring test performed by the keyword filter (the source uses
pandas `Series.str.contains`, whose pattern is a regular expression;
for keywords without regex metacharacters this is plain substring
containment). -/
def containsSub (pat : List Char) : List Char → Bool
  | [] => pat.isEmpty
  | c :: rest => pat.isPrefixOf (c :: rest) || containsSub pat rest

/-- Case-insensitive substring test used by the keyword filter. -/
def containsCI (hay needle : String) : Bool :=
  containsSub (lowerStr needle).data (lowerStr hay).data

/-- One scanning pass of Python `s.replace(pat, rep)`: leftmost,
non-overlapping occurrences.  The fuel argument is the length of the
remaining input; every step consumes at least one input character
whenever `pat` is non-empty (both patterns of the source are). -/
def replaceAux (pat rep : List Char) : Nat → List Char → List Char
  | 0, s => s
  | _ + 1, [] => []
  | fuel + 1, c :: rest =>
    if !pat.isEmpty && pat.isPrefixOf (c :: rest) then
      rep ++ replaceAux pat rep fuel ((c :: rest).drop pat.length)
    else
      c :: replaceAux pat rep fuel rest

/-- Python `s.replace(pat, rep)` for a non-empty `pat`. -/
def pyReplace (s pat rep : String) : String :=
  String.mk (replaceAux pat.data rep.data s.data.length s.data)

/-- The response shape detector as worded by the specification: a list
is returned as-is; for a mapping, the value under the first candidate
key (in the fixed order) whose value is itself a list; the empty list
for every other JSON value or for a mapping with no list-valued
candidate key. -/
def extract_items_spec (js : JVal) : List JVal :=
  match js with
  | .arr xs => xs
  | .obj fs =>
    match candidateKeys.find? (fun k =>
        match jget fs k with | some (.arr _) => true | _ => false) with
    | some k => match jget fs k with | some (.arr xs) => xs | _ => []
    | none => []
  | _ => []

/-- A naive timestamp, the fields that `strftime("%d/%m/%Y %H:%M")`
reads from a pandas `Timestamp`. -/
structure Ts where
  year : Nat
  month : Nat
  day : Nat
  hour : Nat
  minute : Nat
  second : Nat

/-- Gregorian leap-year test. -/
def isLeapYear (y : Nat) : Bool :=
  (y % 4 == 0 && y % 100 != 0) || (y % 400 == 0)

/-- Number of days of a month. -/
def daysInMonth (y m : Nat) : Nat :=
  if m == 2 then (if isLeapYear y then 29 else 28)
  else if m == 4 || m == 6 || m == 9 || m == 11 then 30
  else 31

/-- Validity of a timestamp as enforced by pandas: a real calendar
date inside the representable `Timestamp` range (years 1677-2262; the
exact nanosecond bounds cut a few days off the boundary years, which
no claim depends on), with in-range time fields.  `pd.to_datetime`
with `errors="coerce"` turns anything outside this into `NaT`. -/
def tsValid (t : Ts) : Bool :=
  decide (1677 ≤ t.year ∧ t.year ≤ 2262 ∧ 1 ≤ t.month ∧ t.month ≤ 12 ∧
    1 ≤ t.day ∧ t.day ≤ daysInMonth t.year t.month ∧
    t.hour < 24 ∧ t.minute < 60 ∧ t.second < 60)

/-- Read exactly `k` ASCII digits, accumulating their value. -/
def readDigits : Nat → Nat → List Char → Option (Nat × List Char)
  | 0, acc, cs => some (acc, cs)
  | k + 1, acc, c :: cs =>
    if c.isDigit then readDigits k (acc * 10 + (c.toNat - 48)) cs else none
  | _ + 1, _, [] => none

/-- Consume one expected character. -/
def expectChar (c : Char) : List Char → Option (List Char)
  | d :: cs => if d == c then some cs else none
  | [] => none

/-- Accept an optional trailing UTC designator or numeric offset
(`Z`, `+HH:MM`, `-HH:MM`, `+HHMM`, `-HHMM`); with `utc=False` the
offset does not change the fields that `strftime` renders. -/
def parseTZ : List Char → Bool
  | [] => true
  | ['Z'] => true
  | c :: rest =>
    (c == '+' || c == '-') &&
    (match readDigits 2 0 rest with
     | some (_, []) => false
     | some (_, ':' :: rest2) =>
       (match readDigits 2 0 rest2 with
        | some (_, []) => true
        | _ => false)
     | some (_, rest2) =>
       (match readDigits 2 0 rest2 with
        | some (_, []) => true
        | _ => false)
     | none => false)

/-- Consume an optional fractional-seconds part. -/
def dropFrac : List Char → Option (List Char)
  | '.' :: rest =>
    if (rest.takeWhile Char.isDigit).isEmpty then none
    else some (rest.dropWhile Char.isDigit)
  | cs => some cs

/-- Parse an ISO-8601 date or datetime (`YYYY-MM-DD`, optionally
followed by `T` or a space and `HH:MM[:SS[.frac]][offset]`). -/
def parseIsoCore (cs : List Char) : Option Ts := do
  let (y, cs) ← readDigits 4 0 cs
  let cs ← expectChar '-' cs
  let (mo, cs) ← readDigits 2 0 cs
  let cs ← expectChar '-' cs
  let (d, cs) ← readDigits 2 0 cs
  match cs with
  | [] => some ⟨y, mo, d, 0, 0, 0⟩
  | sep :: rest =>
    if sep == 'T' || sep == ' ' then do
      let (h, rest) ← readDigits 2 0 rest
      let rest ← expectChar ':' rest
      let (mi, rest) ← readDigits 2 0 rest
      match rest with
      | ':' :: rest2 => do
        let (sec, rest3) ← readDigits 2 0 rest2
        let rest4 ← dropFrac rest3
        if parseTZ rest4 then some ⟨y, mo, d, h, mi, sec⟩ else none
      | _ => if parseTZ rest then some ⟨y, mo, d, h, mi, 0⟩ else none
    else none

/-- `pd.to_datetime(s, errors="coerce")` on a string, modelled on the
ISO-8601 family of formats that the upstream API emits; any other
string coerces to `NaT` (`none`).  Invalid calendar dates and
out-of-range years also coerce to `NaT`. -/
def pdParseString (s : String) : Option Ts :=
  match parseIsoCore (pyStrip s).data with
  | some t => if tsValid t then some t else none
  | none => none

/-- Convert a day count relative to 1970-01-01 into a civil date
(standard era-based Gregorian conversion). -/
def civilFromDays (z0 : Int) : Int × Int × Int :=
  let z := z0 + 719468
  let era := z.fdiv 146097
  let doe := z - era * 146097
  let yoe := (doe - doe / 1460 + doe / 36524 - doe / 146096) / 365
  let y := yoe + era * 400
  let doy := doe - (365 * yoe + yoe / 4 - yoe / 100)
  let mp := (5 * doy + 2) / 153
  let d := doy - (153 * mp + 2) / 5 + 1
  let m := mp + (if mp < 10 then 3 else -9)
  (if m ≤ 2 then y + 1 else y, m, d)

/-- `pd.to_datetime(n, errors="coerce")` on a number: nanoseconds since
the epoch; values whose date falls outside the `Timestamp` range
coerce to `NaT`. -/
def pdFromNum (n : Int) : Option Ts :=
  let secsTotal := n.fdiv 1000000000
  let sec := secsTotal.fmod 60
  let minsTotal := secsTotal.fdiv 60
  let mi := minsTotal.fmod 60
  let hoursTotal := minsTotal.fdiv 60
  let h := hoursTotal.fmod 24
  let days := hoursTotal.fdiv 24
  let ymd := civilFromDays days
  let t : Ts := ⟨ymd.1.toNat, ymd.2.1.toNat, ymd.2.2.toNat, h.toNat, mi.toNat, sec.toNat⟩
  if tsValid t then some t else none

/-- `pd.to_datetime(x, errors="coerce", utc=False)` on a scalar:
a string is parsed, a number is treated as epoch nanoseconds, `None`
gives `NaT`, and a bool or a nested container raises (which the
caller's `except` turns into the empty string). -/
def pdToDatetimeScalar : JVal → Option Ts
  | .str s => pdParseString s
  | .num n => pdFromNum n
  | _ => none

/-- The value returned by `_fmt_dt_iso_to_br`: its annotation says
`str`, but on a singleton-list input the pandas pipeline makes it
return a one-element `Index` of formatted strings instead. -/
inductive FmtResult where
  | s (v : String)
  | idx (vs : List String)
deriving DecidableEq

/-- Whether a formatter result is an actual string (as the claims
assume) rather than an `Index` object. -/
def isStrField : FmtResult → Bool
  | .s _ => true
  | .idx _ => false

/-- String rendering of a formatter result, used where downstream
code consumes the field as text; an injective stand-in for Python's
`str()` on the `Index` case. -/
def fmtResultRepr : FmtResult → String
  | .s v => v
  | .idx vs => "Index:" ++ String.intercalate "," vs

/-- The ASCII digit character of `n % 10`. -/
def digitChar (n : Nat) : Char := Char.ofNat (48 + n % 10)

/-- Two-digit zero-padded rendering (exact for `n < 100`, which
`tsValid` guarantees for every field it is applied to). -/
def pad2L (n : Nat) : List Char := [digitChar (n / 10), digitChar n]

/-- Four-digit zero-padded rendering (exact for `n < 10000`). -/
def pad4L (n : Nat) : List Char :=
  [digitChar (n / 1000), digitChar (n / 100), digitChar (n / 10), digitChar n]

/-- `ts.strftime("%d/%m/%Y %H:%M")`. -/
def formatBR (t : Ts) : String :=
  String.mk (pad2L t.day ++ '/' :: pad2L t.month ++ '/' ::
    (pad4L t.year ++ ' ' :: pad2L t.hour ++ ':' :: pad2L t.minute))

/-- `_fmt_dt_iso_to_br(dt)` from `src/app.py`.  Falsy input yields
`""`.  A scalar (string or number) is given to `pd.to_datetime` with
`errors="coerce"`: a parseable value is rendered in the fixed
Brazilian format, `NaT` yields `""`, and a raising input (bool, or a
value the body cannot handle) is caught by the `except` and yields
`""`.  A non-empty list is converted element-wise to a
`DatetimeIndex`: for a singleton list `pd.isna` gives a one-element
array whose truth value is its entry, so one parseable element makes
`ts.strftime` return a one-element `Index` of formatted strings —
returned as-is, not a `str` — while one unparseable element gives
`NaT` hence `""`; for two or more elements the `if pd.isna(ts)` test
raises (ambiguous array truth value) and the `except` yields `""`.
A dict input raises inside the `try` on every path (datetime assembly
needs year/month/day keys; a length-one `Series` has no ambiguity-free
truth value either) and yields `""`. -/
def _fmt_dt_iso_to_br (v : JVal) : FmtResult :=
  if truthy v then
    match v with
    | .arr xs =>
      match xs with
      | [x] =>
        match pdToDatetimeScalar x with
        | some t => .idx [formatBR t]
        | none => .s ""
      | _ => .s ""
    | w =>
      match pdToDatetimeScalar w with
      | some t => .s (formatBR t)
      | none => .s ""
  else .s ""

/-- Recognizer for the fixed Brazilian timestamp shape
`dd/mm/yyyy hh:mm`: sixteen characters with digits and the three
separators in fixed positions. -/
def brShape (s : String) : Bool :=
  match s.data with
  | [d1, d2, a, m1, m2, b, y1, y2, y3, y4, c, h1, h2, e, n1, n2] =>
    d1.isDigit && d2.isDigit && (a == '/') && m1.isDigit && m2.isDigit &&
    (b == '/') && y1.isDigit && y2.isDigit && y3.isDigit && y4.isDigit &&
    (c == ' ') && h1.isDigit && h2.isDigit && (e == ':') &&
    n1.isDigit && n2.isDigit
  | _ => false

/-- The fixed origin `https://pncp.gov.br` of the source (its
`ORIGIN.rstrip("/")` is the same string). -/
def ORIGIN : String := "https://pncp.gov.br"

/-- `_full_url(item_url)` from `src/app.py`: falsy input yields `""`;
a string already starting with `http` is returned as-is; anything else
is made absolute against the fixed origin after stripping leading
slashes (non-string values are first passed through `str()`). -/
def _full_url (item_url : JVal) : String :=
  if !truthy item_url then ""
  else
    match item_url with
    | .str s =>
      if startsWithHttp s then s
      else ORIGIN ++ "/" ++ lstripSlash s
    | v => ORIGIN ++ "/" ++ lstripSlash (pyStr v)

/-- `_build_pncp_link(item)` from `src/app.py`.  The structured branch
fires when the stripped entity identifier has exactly 14 characters,
the stripped year is a non-empty digit string, and the stripped
sequence is non-empty; otherwise the raw URL field (`item_url`, then
`url`) is made absolute and the legacy `/app/compras/` and `/compras/`
segments are rewritten to `/app/editais/`. -/
def _build_pncp_link (item : RawItem) : String :=
  let cnpj := pyStrip (pyStr (pyOr (jgetD item "orgao_cnpj") (.str "")))
  let ano := pyStrip (pyStr (pyOr (jgetD item "ano") (.str "")))
  let seq := pyStrip (pyStr (pyOr (jgetD item "numero_sequencial") (.str "")))
  if cnpj.length == 14 && isdigitStr ano && decide (seq ≠ "") then
    ORIGIN ++ "/app/editais/" ++ cnpj ++ "/" ++ ano ++ "/" ++ seq
  else
    let raw := pyOr (jgetD item "item_url") (pyOr (jgetD item "url") (.str ""))
    let url := _full_url raw
    pyReplace (pyReplace url "/app/compras/" "/app/editais/")
      "/compras/" "/app/editais/"

/-- The link resolver as worded by the claim: the structured branch
requires a 14-character numeric entity identifier and a 4-digit year
(together with a sequence value); the fallback is identical to the
source's. -/
def resolve_link_spec (item : RawItem) : String :=
  let cnpj := pyStrip (pyStr (pyOr (jgetD item "orgao_cnpj") (.str "")))
  let ano := pyStrip (pyStr (pyOr (jgetD item "ano") (.str "")))
  let seq := pyStrip (pyStr (pyOr (jgetD item "numero_sequencial") (.str "")))
  if cnpj.length = 14 ∧ (∀ c ∈ cnpj.data, c.isDigit) ∧
      ano.length = 4 ∧ (∀ c ∈ ano.data, c.isDigit) ∧ seq ≠ "" then
    ORIGIN ++ "/app/editais/" ++ cnpj ++ "/" ++ ano ++ "/" ++ seq
  else
    let raw := pyOr (jgetD item "item_url") (pyOr (jgetD item "url") (.str ""))
    let url := _full_url raw
    pyReplace (pyReplace url "/app/compras/" "/app/editais/")
      "/compras/" "/app/editais/"

/-- The link resolver as worded by the amended claim: the structured
branch requires a 14-character entity identifier (any characters), a
year that is a non-empty string of digits (any length), and a
non-empty sequence value; the fallback is unchanged. -/
def resolve_link_spec_amended (item : RawItem) : String :=
  let cnpj := pyStrip (pyStr (pyOr (jgetD item "orgao_cnpj") (.str "")))
  let ano := pyStrip (pyStr (pyOr (jgetD item "ano") (.str "")))
  let seq := pyStrip (pyStr (pyOr (jgetD item "numero_sequencial") (.str "")))
  if cnpj.length = 14 ∧ ano ≠ "" ∧ (∀ c ∈ ano.data, c.isDigit) ∧ seq ≠ "" then
    ORIGIN ++ "/app/editais/" ++ cnpj ++ "/" ++ ano ++ "/" ++ seq
  else
    let raw := pyOr (jgetD item "item_url") (pyOr (jgetD item "url") (.str ""))
    let url := _full_url raw
    pyReplace (pyReplace url "/app/compras/" "/app/editais/")
      "/compras/" "/app/editais/"

/-- The normalized output row built by `montar_registro` in
`src/app.py`.  Field names follow the dict keys of the source; fields
the source fills with a raw dict value keep type `JVal`, fields the
source builds as strings are `String`. -/
structure Registro where
  municipio_codigo : String
  Cidade : JVal
  UF : JVal
  Titulo : JVal
  Objeto : JVal
  Link : String
  Modalidade : JVal
  Tipo : JVal
  TipoDocumento : JVal
  Orgao : JVal
  Unidade : JVal
  Esfera : JVal
  Publicacao : FmtResult
  FimEnvio : FmtResult
  numero_processo : String
  pubRaw : JVal
  fimRaw : JVal
  valorEstimadoSearch : JVal
  orgaoCnpj : JVal
  ano : JVal
  seq : JVal
  idUpstream : JVal

/-- `montar_registro(item, municipio_codigo)` from `src/app.py`: the
pure field normalizer.  Every lookup either finds a value in the item
or falls back to an empty value; the two date fields go through
`_fmt_dt_iso_to_br`; the `_valor_estimado_search` chain ends in `None`
(here `JVal.null`).  The function performs no I/O. -/
def montar_registro (item : RawItem) (municipio_codigo : String) : Registro :=
  let pub_raw := pyOr (jgetN item "data_publicacao_pncp")
    (pyOr (jgetN item "data") (pyOr (jgetN item "dataPublicacao") (.str "")))
  let fim_raw := pyOr (jgetN item "data_fim_vigencia")
    (pyOr (jgetN item "fimEnvioProposta") (.str ""))
  let processo := _primeiro_valor
    [jgetN item "numeroProcesso", jgetN item "processo",
     jgetN item "numero_processo", jgetN item "numeroProcessoLicitatorio",
     jgetN item "numero_processo_licitatorio", jgetN item "processoLicitatorio",
     jgetN item "numProcesso", jgetN item "processNumber",
     jgetN item "numero_processo_adm", jgetN item "numeroProcessoAdministrativo"]
  { municipio_codigo := municipio_codigo
    Cidade := jgetD item "municipio_nome"
    UF := jgetD item "uf"
    Titulo := pyOr (jgetD item "title") (jgetD item "titulo")
    Objeto := pyOr (jgetD item "description") (jgetD item "objeto")
    Link := _build_pncp_link item
    Modalidade := jgetD item "modalidade_licitacao_nome"
    Tipo := jgetD item "tipo_nome"
    TipoDocumento := jgetD item "document_type"
    Orgao := pyOr (jgetD item "orgao_nome") (jgetD item "orgao")
    Unidade := jgetD item "unidade_nome"
    Esfera := jgetD item "esfera_nome"
    Publicacao := _fmt_dt_iso_to_br pub_raw
    FimEnvio := _fmt_dt_iso_to_br fim_raw
    numero_processo := pyStrip (pyStr (pyOr processo (.str "")))
    pubRaw := pub_raw
    fimRaw := fim_raw
    valorEstimadoSearch := firstTruthyD .null
      [jgetN item "valor_estimado_total", jgetN item "valorTotalEstimado",
       jgetN item "valorEstimado", jgetN item "valor"]
    orgaoCnpj := pyOr (jgetN item "orgao_cnpj") (pyOr (jgetN item "orgaoCnpj") (.str ""))
    ano := pyOr (jgetN item "ano") (.str "")
    seq := pyOr (jgetN item "numero_sequencial")
      (pyOr (jgetN item "numeroSequencial") (.str ""))
    idUpstream := pyOr (jgetN item "id")
      (pyOr (jgetN item "documentId") (pyOr (jgetN item "documento_id") (.str ""))) }

/-- One run of the page loop of `consultar_pncp_por_municipio` from
`src/app.py`, starting at page `pagina`.  The network is abstracted as
`fetch`, mapping a page number to either the decoded JSON body
(`requests.get` + `raise_for_status` + `r.json()` succeeded) or an
error (any of those raised).  The result pairs the outcome of the loop
with the list of page numbers requested, in order.  The loop body:
decode the items with `_items_from_json`; an empty page stops; a page
shorter than `tam_pagina` is consumed and stops; otherwise the next
page is requested.  A raise inside the loop discards the accumulated
items and propagates.  The `while True` loop is given fuel; every
theorem below supplies enough fuel for the run it describes. -/
def consultarAux (fetch : Nat → Except Unit JVal) (tam : Nat) :
    Nat → Nat → Except Unit (List JVal) × List Nat
  | 0, _ => (.ok [], [])
  | fuel + 1, pagina =>
    match fetch pagina with
    | .error e => (.error e, [pagina])
    | .ok js =>
      let itens := _items_from_json js
      if itens.isEmpty then (.ok [], [pagina])
      else if itens.length < tam then (.ok itens, [pagina])
      else
        let rest := consultarAux fetch tam fuel (pagina + 1)
        (rest.1.map (itens ++ ·), pagina :: rest.2)

/-- `consultar_pncp_por_municipio` from `src/app.py`: the page loop
started at page 1.  The municipality id, status value and the fixed
query parameters are absorbed into `fetch`; the inter-page
`time.sleep` delay has no observable effect on the result. -/
def consultar_pncp_por_municipio (fetch : Nat → Except Unit JVal)
    (tam_pagina fuel : Nat) : Except Unit (List JVal) × List Nat :=
  consultarAux fetch tam_pagina fuel 1

/-- The per-shard record builder of `coletar_por_assinatura` from
`src/app.py`: `consultar_pncp_por_municipio` is called inside
`try`/`except Exception`, a failure contributing an empty item list;
each collected item then becomes one `Registro` via `montar_registro`.
The shard fetch is abstracted as `consult`, mapping a municipality
code to the item list of `consultar_pncp_por_municipio` (typed
`List[Dict]` in the source) or to the exception it raised. -/
def registros_brutos (consult : String → Except Unit (List RawItem))
    (codigos : List String) : List Registro :=
  codigos.flatMap (fun codigo =>
    (match consult codigo with
     | .error _ => []
     | .ok itens => itens).map (fun it => montar_registro it codigo))

/-- The text a pandas cell presents to the keyword mask of
`coletar_por_assinatura`: a string cell as-is; a missing value
(`None`) becomes `""` through `fillna("")`; any other (non-string)
cell is `none` — its `str.contains` result is `NaN`, which `na=False`
maps to "not kept" regardless of the pattern. -/
def filterCell : JVal → Option String
  | .str v => some v
  | .null => some ""
  | _ => none

/-- One cell against the keyword mask, for a given search
primitive. -/
def cellMatches (search : String → String → Bool) (cell : JVal)
    (pat : String) : Bool :=
  match filterCell cell with
  | some v => search v pat
  | none => false

/-- Whether one row passes the source's keyword mask: the `Título`
column matches or the `Objeto` column matches. -/
def rowMatches (search : String → String → Bool) (r : Registro)
    (q : String) : Bool :=
  cellMatches search r.Titulo q || cellMatches search r.Objeto q

/-- The client-side keyword filter of `coletar_por_assinatura` from
`src/app.py`: the keyword is stripped; when non-empty, a row is kept
when its title column or its description column matches it.  The
matching primitive of pandas `Series.str.contains(q, case=False,
na=False)` — a case-insensitive regular-expression search for `q` in
the cell — is an external library facility and is abstracted as the
`search` oracle, exactly as the network is abstracted as a fetch
oracle. -/
def filtrar (search : String → String → Bool) (regs : List Registro)
    (q : String) : List Registro :=
  let qs := pyStrip q
  if qs == "" then regs
  else regs.filter (fun r => rowMatches search r qs)

/-- The regex metacharacters of Python `re`; a pattern free of them
denotes itself, so `re.search` finds it exactly where it occurs as a
literal substring. -/
def regexMeta : List Char :=
  ['.', '^', '$', '*', '+', '?', '[', ']', '\\', '|', '(', ')',
   Char.ofNat 123, Char.ofNat 125]

/-- Whether a keyword contains no regex metacharacter. -/
def regexFree (s : String) : Bool :=
  s.data.all (fun c => !(regexMeta.contains c))

/-- The concrete search primitive valid for metacharacter-free
patterns: for such a pattern the case-insensitive `re.search` of the
pandas mask succeeds exactly when the pattern occurs as a case-folded
substring of the cell. -/
def searchLiteral (hay pat : String) : Bool := containsCI hay pat

/-- The keyword filter as worded by the claim: keep exactly the rows
whose concatenated title and description contain the keyword
case-insensitively as a substring; an absent keyword filters
nothing. -/
def filtrar_spec (regs : List Registro) (q : String) : List Registro :=
  let qs := pyStrip q
  if qs = "" then regs
  else regs.filter (fun r =>
    containsCI (((filterCell r.Titulo).getD "") ++
      ((filterCell r.Objeto).getD "")) qs)

/-- The keyword filter as worded by the amended claim: with a
non-empty (stripped) keyword, keep exactly the rows whose title field
or description field — the two tested separately, never their
concatenation — matches the keyword under the same case-insensitive
search primitive; a cell that is not text (and not a filled-in
missing value) never matches; an absent keyword filters nothing. -/
def filtrar_spec_amended (search : String → String → Bool)
    (regs : List Registro) (q : String) : List Registro :=
  let qs := pyStrip q
  if qs = "" then regs
  else regs.filter (fun r =>
    ((filterCell r.Titulo).any (fun v => search v qs)) ||
    ((filterCell r.Objeto).any (fun v => search v qs)))

/-- `coletar_por_assinatura` from `src/app.py`, up to the keyword
filter: record collection over the shard list followed by the filter.
The second component is the list of user-facing messages (`st.warning`
and `st.error` calls) issued during collection: the source issues none
in this function — its `except Exception` branch silently sets the
shard's items to `[]`.  The subsequent sort by parsed publication date
(a permutation) and the optional value-enrichment pass (network I/O
behind an off-by-default checkbox) are outside every claim and are not
modelled. -/
def coletar_por_assinatura (search : String → String → Bool)
    (consult : String → Except Unit (List RawItem))
    (codigos : List String) (q : String) : List Registro × List String :=
  (filtrar search (registros_brutos consult codigos) q, [])

/-- The composite deduplication key described by the specification:
prefer the stable upstream identifier, fall back to the
(year, sequence, issuing-entity-id) composite, fall back to a content
key over (title, shard key, published-at, issuing body).  The key is
rendered as a tagged string; an injective stand-in for the content
hash. -/
def chave (r : Registro) : String :=
  if truthy r.idUpstream then "id:" ++ jvalRepr r.idUpstream
  else if truthy r.ano && truthy r.seq && truthy r.orgaoCnpj then
    "comp:" ++ jvalRepr r.ano ++ "|" ++ jvalRepr r.seq ++ "|" ++ jvalRepr r.orgaoCnpj
  else
    "hash:" ++ jvalRepr r.Titulo ++ "|" ++ r.municipio_codigo ++ "|" ++
      fmtResultRepr r.Publicacao ++ "|" ++ jvalRepr r.Orgao

/-- Deduplication with last-seen-wins on key collision, as described
by the specification (modelled from the spec: the source has no
deduplication step). -/
def dedupLastWins (rs : List Registro) : List Registro :=
  rs.foldl (fun acc r => acc.filter (fun x => !(chave x == chave r)) ++ [r]) []

/-- Accent folding of one lower-case character: the effect of the
source's NFKD-normalize-and-drop-combining-marks step on the
precomposed Latin letters that occur in Brazilian municipality names;
other characters pass through unchanged. -/
def foldAccent (c : Char) : Char :=
  if c == 'á' || c == 'à' || c == 'â' || c == 'ã' || c == 'ä' then 'a'
  else if c == 'é' || c == 'è' || c == 'ê' || c == 'ë' then 'e'
  else if c == 'í' || c == 'ì' || c == 'î' || c == 'ï' then 'i'
  else if c == 'ó' || c == 'ò' || c == 'ô' || c == 'õ' || c == 'ö' then 'o'
  else if c == 'ú' || c == 'ù' || c == 'û' || c == 'ü' then 'u'
  else if c == 'ç' then 'c'
  else if c == 'ñ' then 'n'
  else if c == 'ý' || c == 'ÿ' then 'y'
  else c

/-- Collapse maximal runs of underscores into one underscore; the
effect of the source's substitution of every run of characters
outside `[a-z0-9]` by a single underscore, after each such character
has been mapped to an underscore individually.  The flag records
whether the previous kept character was an underscore. -/
def collapseUnd : Bool → List Char → List Char
  | _, [] => []
  | prevU, c :: rest =>
    if c == '_' then
      if prevU then collapseUnd true rest
      else '_' :: collapseUnd true rest
    else c :: collapseUnd false rest

/-- Python `s.strip("_")`. -/
def stripUnd (cs : List Char) : List Char :=
  ((cs.dropWhile (· == '_')).reverse.dropWhile (· == '_')).reverse

/-- `_norm(s)` from `src/app.py`: strip, lower-case, fold accents
(NFKD plus removal of combining marks), replace every run of
characters outside `[a-z0-9]` by one underscore, and strip leading and
trailing underscores. -/
def _norm (s : String) : String :=
  let folded := (pyStrip s).data.map (fun c => foldAccent c.toLower)
  let subbed := folded.map (fun c => if c.isDigit || c.isLower then c else '_')
  String.mk (stripUnd (collapseUnd false subbed))

/-- A selected municipality as stored in
`st.session_state.selected_municipios`. -/
structure Municipio where
  codigo_pncp : String
  nome : String
  uf : String
deriving DecidableEq

/-- One row of the PNCP municipality lookup table as produced by
`load_municipios_pncp` (name, PNCP code, state, normalized name). -/
structure PncpRow where
  nome : String
  codigo_pncp : String
  uf : String
  nome_norm : String
deriving DecidableEq

/-- The name-resolution step of `_add_municipio_by_name` from
`src/app.py`: filter the lookup table by state (when a concrete state
is selected) and by normalized name, fall back to a name-only filter
when that is empty, and take the first matching row
(`candidates.iloc[0]`); `none` when the name cannot be resolved. -/
def resolveMunicipio (nome_municipio : String) (uf : Option String)
    (pncp_df : List PncpRow) : Option PncpRow :=
  let nome_norm := _norm nome_municipio
  let base : List PncpRow :=
    match uf with
    | some u =>
      if u != "" && u != "Todos" then
        pncp_df.filter (fun (r : PncpRow) => upperStr r.uf == upperStr u)
      else pncp_df
    | none => pncp_df
  let cand := base.filter (fun (r : PncpRow) => r.nome_norm == nome_norm)
  let cand :=
    if cand.isEmpty then
      pncp_df.filter (fun (r : PncpRow) => r.nome_norm == nome_norm)
    else cand
  cand.head?

/-- `_add_municipio_by_name(nome, uf, pncp_df)` from `src/app.py`,
acting on the selection list `sel` and returning the new selection.
An empty name, a full selection (25 entries), an unresolvable name,
or an already-selected code all leave the selection unchanged; the
`st.warning` / `st.error` calls on those paths have no effect on the
selection and are not modelled.  The lookup table always carries a
`uf` column, so the appended entry takes its `uf` from the resolved
row. -/
def _add_municipio_by_name (nome_municipio : String) (uf : Option String)
    (pncp_df : List PncpRow) (sel : List Municipio) : List Municipio :=
  if nome_municipio == "" then sel
  else if 25 ≤ sel.length then sel
  else
    match resolveMunicipio nome_municipio uf pncp_df with
    | none => sel
    | some row =>
      if row.codigo_pncp ∈ sel.map (fun (m : Municipio) => m.codigo_pncp) then sel
      else sel ++ [Municipio.mk row.codigo_pncp row.nome row.uf]

/-- Concrete simulated endpoint for the pagination scenario: pages
1 to 3 carry exactly two items, page 4 carries one. -/
def bodyW (i : Nat) : JVal :=
  if i ≤ 3 then .arr [.num 1, .num 2] else .arr [.num 3]

/-- Concrete fetch oracle that always succeeds with `bodyW`. -/
def fetchW (i : Nat) : Except Unit JVal := .ok (bodyW i)

/-- Concrete fetch oracle whose every request raises. -/
def fetchFail : Nat → Except Unit JVal := fun _ => .error ()

/-- A concrete raw item with a stable upstream identifier. -/
def itemW : RawItem := [("title", .str "Obra"), ("id", .str "X1")]

/-- Concrete shard oracle: shard `a` raises, every other shard returns
one item. -/
def consultW (c : String) : Except Unit (List RawItem) :=
  if c == "a" then .error () else .ok [itemW]

/-- Concrete shard oracle returning the same item twice. -/
def consultDup : String → Except Unit (List RawItem) :=
  fun _ => .ok [itemW, itemW]

/-- A concrete raw item whose title is `ab` and description `cd`. -/
def itemC8 : RawItem := [("title", .str "ab"), ("objeto", .str "cd")]

/-- The normalized record of `itemC8`. -/
def regC8 : Registro := montar_registro itemC8 "m1"

/-- A concrete raw item with a 14-character non-numeric entity
identifier and a 2-digit year. -/
def itemC7 : RawItem :=
  [("orgao_cnpj", .str "0123456789012A"), ("ano", .str "24"),
   ("numero_sequencial", .str "7")]

/-- A concrete raw item whose publication-date field is a singleton
list holding one parseable date. -/
def itemC10 : RawItem := [("data", .arr [.str "2024-01-01"])]

/-- A one-row lookup table resolving the name `Alfa` to code `123`. -/
def df9 : List PncpRow := [⟨"Alfa", "123", "SP", "alfa"⟩]

/-- A selection already holding the municipality with code `123`. -/
def sel9 : List Municipio := [⟨"123", "Alfa", "SP"⟩]

/-- The populated-from-the-item-or-empty property of the claim about
the field normalizer: a field value either is the empty string or is a
value stored in the item. -/
def FromItemOrEmpty (item : RawItem) (v : JVal) : Prop :=
  v = .str "" ∨ ∃ k, jget item k = some v

/-- A lookup with default `""` either returns the default or a value
present in the item. -/
theorem fromItemOrEmpty_jgetD (item : RawItem) (k : String) :
    FromItemOrEmpty item (jgetD item k) := by
  unfold FromItemOrEmpty jgetD
  cases h : jget item k with
  | none => exact .inl rfl
  | some v => exact .inr ⟨k, by simp [h]⟩

/-- `pyOr` of two populated-or-empty values is populated-or-empty. -/
theorem fromItemOrEmpty_pyOr (item : RawItem) (a b : JVal)
    (ha : FromItemOrEmpty item a) (hb : FromItemOrEmpty item b) :
    FromItemOrEmpty item (pyOr a b) := by
  unfold pyOr
  by_cases h : truthy a = true
  · simpa [h] using ha
  · simp only [Bool.not_eq_true] at h
    simpa [h] using hb

/-- A truthy value of `d.get(k)` comes from the item. -/
theorem jget_of_truthy_jgetN (item : RawItem) (k : String)
    (h : truthy (jgetN item k) = true) : jget item k = some (jgetN item k) := by
  unfold jgetN at *
  cases hk : jget item k with
  | none => rw [hk] at h; simp [truthy] at h
  | some v => simp [hk]

/-- `pyOr` with a `d.get(k)` head preserves populated-or-empty. -/
theorem fromItemOrEmpty_pyOrN (item : RawItem) (k : String) (rest : JVal)
    (hrest : FromItemOrEmpty item rest) :
    FromItemOrEmpty item (pyOr (jgetN item k) rest) := by
  unfold pyOr
  by_cases h : truthy (jgetN item k) = true
  · exact .inr ⟨k, by simpa [h] using jget_of_truthy_jgetN item k h⟩
  · simp only [Bool.not_eq_true] at h
    simpa [h] using hrest

/-- The first truthy value of a chain is either the default or one of
the chain's truthy members. -/
theorem firstTruthyD_mem (d : JVal) (args : List JVal) :
    firstTruthyD d args = d ∨
    ∃ a, a ∈ args ∧ truthy a = true ∧ firstTruthyD d args = a := by
  induction args with
  | nil => exact .inl rfl
  | cons a rest ih =>
    by_cases h : truthy a = true
    · exact .inr ⟨a, by simp, h, by simp [firstTruthyD, h]⟩
    · simp only [Bool.not_eq_true] at h
      rcases ih with h1 | ⟨b, hb, ht, he⟩
      · exact .inl (by simp [firstTruthyD, h, h1])
      · exact .inr ⟨b, by simp [hb], ht, by simp [firstTruthyD, h, he]⟩

/-- The date formatter yields the empty string, a rendered timestamp,
or a one-element Index holding a rendered timestamp (the
singleton-list path). -/
theorem fmt_dt_cases (v : JVal) :
    _fmt_dt_iso_to_br v = .s "" ∨
    (∃ t, _fmt_dt_iso_to_br v = .s (formatBR t)) ∨
    (∃ t, _fmt_dt_iso_to_br v = .idx [formatBR t]) := by
  unfold _fmt_dt_iso_to_br
  by_cases h : truthy v = true
  · rw [if_pos h]
    cases v with
    | arr xs =>
      match xs with
      | [] => exact .inl rfl
      | [x] =>
        cases hp : pdToDatetimeScalar x with
        | none => exact .inl (by simp [hp])
        | some t => exact .inr (.inr ⟨t, by simp [hp]⟩)
      | _ :: _ :: _ => exact .inl rfl
    | null =>
      cases hp : pdToDatetimeScalar .null with
      | none => exact .inl (by simp [hp])
      | some t => exact .inr (.inl ⟨t, by simp [hp]⟩)
    | bool b =>
      cases hp : pdToDatetimeScalar (.bool b) with
      | none => exact .inl (by simp [hp])
      | some t => exact .inr (.inl ⟨t, by simp [hp]⟩)
    | num n =>
      cases hp : pdToDatetimeScalar (.num n) with
      | none => exact .inl (by simp [hp])
      | some t => exact .inr (.inl ⟨t, by simp [hp]⟩)
    | str w =>
      cases hp : pdToDatetimeScalar (.str w) with
      | none => exact .inl (by simp [hp])
      | some t => exact .inr (.inl ⟨t, by simp [hp]⟩)
    | obj fs =>
      cases hp : pdToDatetimeScalar (.obj fs) with
      | none => exact .inl (by simp [hp])
      | some t => exact .inr (.inl ⟨t, by simp [hp]⟩)
  · simp only [Bool.not_eq_true] at h
    exact .inl (by simp [h])

/-- Every digit character produced by the renderer is an ASCII digit. -/
theorem digitChar_isDigit (n : Nat) : (digitChar n).isDigit = true := by
  have hb : ∀ k, k < 10 → (Char.ofNat (48 + k)).isDigit = true := by decide
  exact hb (n % 10) (Nat.mod_lt _ (by norm_num))

/-- The rendered Brazilian timestamp always has the fixed
`dd/mm/yyyy hh:mm` shape. -/
theorem brShape_formatBR (t : Ts) : brShape (formatBR t) = true := by
  simp [brShape, formatBR, pad2L, pad4L, digitChar_isDigit]

/-- C1: for every raw item dictionary (including the empty mapping)
and shard key, `montar_registro` returns a normalized record — in this
embedding it is a total pure function, with no failure monad and no
I/O — and each output field is either populated from the item (dates
as a rendered parsed timestamp — or, for a singleton-list upstream
date value, a one-element Index of a rendered timestamp — and the
link through the two link-builder branches) or substituted with an
empty value: the empty string for text fields, `null` (Python `None`)
for the estimated-value field. -/
theorem montar_registro_total_fields (item : RawItem) (codigo : String) :
    (montar_registro item codigo).municipio_codigo = codigo ∧
    FromItemOrEmpty item (montar_registro item codigo).Cidade ∧
    FromItemOrEmpty item (montar_registro item codigo).UF ∧
    FromItemOrEmpty item (montar_registro item codigo).Titulo ∧
    FromItemOrEmpty item (montar_registro item codigo).Objeto ∧
    FromItemOrEmpty item (montar_registro item codigo).Modalidade ∧
    FromItemOrEmpty item (montar_registro item codigo).Tipo ∧
    FromItemOrEmpty item (montar_registro item codigo).TipoDocumento ∧
    FromItemOrEmpty item (montar_registro item codigo).Orgao ∧
    FromItemOrEmpty item (montar_registro item codigo).Unidade ∧
    FromItemOrEmpty item (montar_registro item codigo).Esfera ∧
    FromItemOrEmpty item (montar_registro item codigo).pubRaw ∧
    FromItemOrEmpty item (montar_registro item codigo).fimRaw ∧
    FromItemOrEmpty item (montar_registro item codigo).orgaoCnpj ∧
    FromItemOrEmpty item (montar_registro item codigo).ano ∧
    FromItemOrEmpty item (montar_registro item codigo).seq ∧
    FromItemOrEmpty item (montar_registro item codigo).idUpstream ∧
    ((montar_registro item codigo).Publicacao = .s "" ∨
      (∃ t, (montar_registro item codigo).Publicacao = .s (formatBR t)) ∨
      (∃ t, (montar_registro item codigo).Publicacao = .idx [formatBR t])) ∧
    ((montar_registro item codigo).FimEnvio = .s "" ∨
      (∃ t, (montar_registro item codigo).FimEnvio = .s (formatBR t)) ∨
      (∃ t, (montar_registro item codigo).FimEnvio = .idx [formatBR t])) ∧
    ((montar_registro item codigo).numero_processo = "" ∨
      ∃ k v, jget item k = some v ∧ truthy v = true ∧
        (montar_registro item codigo).numero_processo = pyStrip (pyStr v)) ∧
    ((montar_registro item codigo).valorEstimadoSearch = .null ∨
      ∃ k, jget item k = some (montar_registro item codigo).valorEstimadoSearch ∧
        truthy (montar_registro item codigo).valorEstimadoSearch = true) := by
  have hempty : FromItemOrEmpty item (.str "") := .inl rfl
  refine ⟨rfl, fromItemOrEmpty_jgetD .., fromItemOrEmpty_jgetD ..,
    fromItemOrEmpty_pyOr _ _ _ (fromItemOrEmpty_jgetD ..) (fromItemOrEmpty_jgetD ..),
    fromItemOrEmpty_pyOr _ _ _ (fromItemOrEmpty_jgetD ..) (fromItemOrEmpty_jgetD ..),
    fromItemOrEmpty_jgetD .., fromItemOrEmpty_jgetD .., fromItemOrEmpty_jgetD ..,
    fromItemOrEmpty_pyOr _ _ _ (fromItemOrEmpty_jgetD ..) (fromItemOrEmpty_jgetD ..),
    fromItemOrEmpty_jgetD .., fromItemOrEmpty_jgetD ..,
    fromItemOrEmpty_pyOrN _ _ _ (fromItemOrEmpty_pyOrN _ _ _
      (fromItemOrEmpty_pyOrN _ _ _ hempty)),
    fromItemOrEmpty_pyOrN _ _ _ (fromItemOrEmpty_pyOrN _ _ _ hempty),
    fromItemOrEmpty_pyOrN _ _ _ (fromItemOrEmpty_pyOrN _ _ _ hempty),
    fromItemOrEmpty_pyOrN _ _ _ hempty,
    fromItemOrEmpty_pyOrN _ _ _ (fromItemOrEmpty_pyOrN _ _ _ hempty),
    fromItemOrEmpty_pyOrN _ _ _ (fromItemOrEmpty_pyOrN _ _ _
      (fromItemOrEmpty_pyOrN _ _ _ hempty)),
    fmt_dt_cases _, fmt_dt_cases _, ?_, ?_⟩
  · rcases firstTruthyD_mem (.str "") [jgetN item "numeroProcesso",
      jgetN item "processo", jgetN item "numero_processo",
      jgetN item "numeroProcessoLicitatorio",
      jgetN item "numero_processo_licitatorio",
      jgetN item "processoLicitatorio", jgetN item "numProcesso",
      jgetN item "processNumber", jgetN item "numero_processo_adm",
      jgetN item "numeroProcessoAdministrativo"] with hd | ⟨a, hmem, ht, he⟩
    · left
      have hz : (montar_registro item codigo).numero_processo =
          pyStrip (pyStr (pyOr (JVal.str "") (.str ""))) := by
        show pyStrip (pyStr (pyOr (firstTruthyD (.str "") _) (.str ""))) = _
        rw [hd]
      rw [hz]
      rfl
    · right
      simp only [List.mem_cons, List.not_mem_nil, or_false] at hmem
      have hnp : (montar_registro item codigo).numero_processo =
          pyStrip (pyStr a) := by
        show pyStrip (pyStr (pyOr (firstTruthyD (.str "") _) (.str ""))) = _
        rw [he]
        simp [pyOr, ht]
      rcases hmem with h | h | h | h | h | h | h | h | h | h <;>
        (subst h; exact ⟨_, _, jget_of_truthy_jgetN _ _ ht, ht, hnp⟩)
  · rcases firstTruthyD_mem .null [jgetN item "valor_estimado_total",
      jgetN item "valorTotalEstimado", jgetN item "valorEstimado",
      jgetN item "valor"] with hd | ⟨a, hmem, ht, he⟩
    · exact .inl hd
    · right
      simp only [List.mem_cons, List.not_mem_nil, or_false] at hmem
      have hval : (montar_registro item codigo).valorEstimadoSearch = a := he
      rw [hval]
      rcases hmem with h | h | h | h <;>
        (subst h; exact ⟨_, jget_of_truthy_jgetN _ _ ht, ht⟩)

/-- C10 counterexample: on an item whose `data` field is the
singleton list `["2024-01-01"]`, the source's `pd.to_datetime` builds
a `DatetimeIndex`, the one-element `pd.isna` array is falsy, and
`strftime` returns a one-element `Index` object, which
`_fmt_dt_iso_to_br` returns as-is — so the publication field is not a
string at all: neither the empty string nor a string in the fixed
`dd/mm/yyyy hh:mm` format, contradicting the claimed shape
invariant. -/
theorem montar_dates_counterexample :
    (montar_registro itemC10 "m").Publicacao =
      FmtResult.idx ["01/01/2024 00:00"] ∧
    isStrField (montar_registro itemC10 "m").Publicacao = false ∧
    (montar_registro itemC10 "m").Publicacao ≠ FmtResult.s "" :=
  ⟨rfl, rfl, by decide⟩

/-- C10 amended: each of the two date fields of every normalized
record is the empty string, a timestamp rendered in the fixed
Brazilian format `dd/mm/yyyy hh:mm`, or — when the upstream date
value is a singleton list with one parseable element — a one-element
Index whose sole entry is rendered in that fixed format; an
unparseable or absent upstream date yields the empty string, and a
raw upstream date string is never passed through unformatted. -/
theorem montar_registro_dates_br (item : RawItem) (codigo : String) :
    ((montar_registro item codigo).Publicacao = .s "" ∨
      (∃ w, (montar_registro item codigo).Publicacao = .s w ∧
        brShape w = true) ∨
      (∃ w, (montar_registro item codigo).Publicacao = .idx [w] ∧
        brShape w = true)) ∧
    ((montar_registro item codigo).FimEnvio = .s "" ∨
      (∃ w, (montar_registro item codigo).FimEnvio = .s w ∧
        brShape w = true) ∨
      (∃ w, (montar_registro item codigo).FimEnvio = .idx [w] ∧
        brShape w = true)) := by
  have hpub : (montar_registro item codigo).Publicacao =
      _fmt_dt_iso_to_br (montar_registro item codigo).pubRaw := rfl
  have hfim : (montar_registro item codigo).FimEnvio =
      _fmt_dt_iso_to_br (montar_registro item codigo).fimRaw := rfl
  constructor
  · rcases fmt_dt_cases ((montar_registro item codigo).pubRaw) with
      h | ⟨t, ht⟩ | ⟨t, ht⟩
    · exact .inl (hpub.trans h)
    · exact .inr (.inl ⟨formatBR t, hpub.trans ht, brShape_formatBR t⟩)
    · exact .inr (.inr ⟨formatBR t, hpub.trans ht, brShape_formatBR t⟩)
  · rcases fmt_dt_cases ((montar_registro item codigo).fimRaw) with
      h | ⟨t, ht⟩ | ⟨t, ht⟩
    · exact .inl (hfim.trans h)
    · exact .inr (.inl ⟨formatBR t, hfim.trans ht, brShape_formatBR t⟩)
    · exact .inr (.inr ⟨formatBR t, hfim.trans ht, brShape_formatBR t⟩)

/-- Probing the candidate keys in order agrees with finding the first
key whose value is a list. -/
theorem firstListVal_eq_find (fs : List (String × JVal)) :
    ∀ ks : List String,
    (firstListVal fs ks).getD [] =
      (match ks.find? (fun k =>
          match jget fs k with | some (.arr _) => true | _ => false) with
       | some k => (match jget fs k with | some (.arr xs) => xs | _ => [])
       | none => []) := by
  intro ks
  induction ks with
  | nil => rfl
  | cons k ks ih =>
    cases hk : jget fs k with
    | none => simpa [firstListVal, List.find?_cons, hk] using ih
    | some v =>
      cases v with
      | arr xs => simp [firstListVal, List.find?_cons, hk]
      | null | bool _ | num _ | str _ | obj _ =>
        simpa [firstListVal, List.find?_cons, hk] using ih

/-- C2: the response shape detector `_items_from_json` behaves exactly
as the claim words it: a list is returned as-is; for a mapping, the
value under the first candidate key (in the fixed order `items`,
`results`, `conteudo`, `licitacoes`, `data`, `documents`,
`documentos`, `content`, `resultados`) whose value is itself a list;
the empty list for every other JSON value or for a mapping with no
list-valued candidate key — and, being a total function, it never
raises. -/
theorem items_from_json_eq_spec (js : JVal) :
    _items_from_json js = extract_items_spec js := by
  cases js with
  | obj fs =>
    show (firstListVal fs candidateKeys).getD [] = _
    rw [firstListVal_eq_find fs candidateKeys]
    rfl
  | null | bool _ | num _ | str _ | arr _ => rfl

/-- The page loop, started at any page, under a run whose first `m`
pages are full and whose page `pagina + m` is short or empty: it
requests exactly the pages `pagina .. pagina + m` in increasing order
and returns the concatenation of their item lists. -/
theorem consultarAux_run (fetch : Nat → Except Unit JVal) (tam : Nat)
    (body : Nat → JVal) :
    ∀ (m fuel pagina : Nat), m < fuel →
    (∀ i, i ≤ pagina + m → pagina ≤ i → fetch i = .ok (body i)) →
    (∀ i, i < pagina + m → pagina ≤ i → (_items_from_json (body i)).length = tam) →
    (_items_from_json (body (pagina + m))).length < tam →
    0 < tam →
    consultarAux fetch tam fuel pagina =
      (.ok ((List.range' pagina (m + 1)).flatMap
          (fun i => _items_from_json (body i))),
        List.range' pagina (m + 1)) := by
  intro m
  induction m with
  | zero =>
    intro fuel pagina hfuel hok _hfull hshort htam
    match fuel, hfuel with
    | f + 1, _ =>
      have hfetch : fetch pagina = .ok (body pagina) :=
        hok pagina (by omega) (by omega)
      show (match fetch pagina with
        | .error e => (Except.error e, [pagina])
        | .ok js => _) = _
      rw [hfetch]
      simp only []
      by_cases he : (_items_from_json (body pagina)).isEmpty = true
      · have hnil : _items_from_json (body pagina) = [] :=
          List.isEmpty_iff.mp he
        simp [he, hnil]
      · simp only [Nat.add_zero] at hshort
        simp [he, hshort]
  | succ m ih =>
    intro fuel pagina hfuel hok hfull hshort htam
    match fuel, hfuel with
    | f + 1, hfuel =>
      have hfetch : fetch pagina = .ok (body pagina) :=
        hok pagina (by omega) (by omega)
      have hlen : (_items_from_json (body pagina)).length = tam :=
        hfull pagina (by omega) (by omega)
      have hne : (_items_from_json (body pagina)).isEmpty = false := by
        cases hE : (_items_from_json (body pagina)).isEmpty
        · rfl
        · exfalso
          rw [List.isEmpty_iff.mp hE] at hlen
          simp at hlen
          omega
      have hrec := ih f (pagina + 1) (by omega)
        (fun i h1 h2 => hok i (by omega) (by omega))
        (fun i h1 h2 => hfull i (by omega) (by omega))
        (by have : pagina + 1 + m = pagina + (m + 1) := by omega
            rw [this]; exact hshort)
        htam
      show (match fetch pagina with
        | .error e => (Except.error e, [pagina])
        | .ok js => _) = _
      rw [hfetch]
      simp only [hne, Bool.false_eq_true, if_false, hlen, Nat.lt_irrefl, hrec]
      rw [List.range'_succ pagina (m + 1) 1]
      simp [Except.map]

/-- C3: the paginated collector requests pages in increasing order
starting at page 1 and stops at the first page whose item list is
empty or shorter than the page size, returning the concatenation of
all fetched pages' items; the second component lists exactly the pages
requested, `1 .. n`, so no page beyond the terminating one is ever
requested. -/
theorem consultar_pagination (fetch : Nat → Except Unit JVal)
    (tam fuel n : Nat) (body : Nat → JVal)
    (hn : 1 ≤ n) (hfuel : n ≤ fuel) (htam : 0 < tam)
    (hok : ∀ i, i ≤ n → 1 ≤ i → fetch i = .ok (body i))
    (hfull : ∀ i, i < n → 1 ≤ i → (_items_from_json (body i)).length = tam)
    (hshort : (_items_from_json (body n)).length < tam) :
    consultar_pncp_por_municipio fetch tam fuel =
      (.ok ((List.range' 1 n).flatMap (fun i => _items_from_json (body i))),
        List.range' 1 n) := by
  obtain ⟨m, rfl⟩ : ∃ m, n = m + 1 := ⟨n - 1, by omega⟩
  have h1m : 1 + m = m + 1 := by omega
  exact consultarAux_run fetch tam body m fuel 1 (by omega)
    (fun i h1 h2 => hok i (by omega) h2)
    (fun i h1 h2 => hfull i (by omega) h2)
    (by rw [h1m]; exact hshort)
    htam

/-- C3 witness: the claim's concrete scenario at page size 2: the
simulated endpoint returns full pages 1-3 and one item on page 4; the
collector returns the items of pages 1-4 and requests exactly pages
1, 2, 3 and 4 — it never requests page 5. -/
theorem consultar_pagination_witness :
    consultar_pncp_por_municipio fetchW 2 10 =
      (.ok [.num 1, .num 2, .num 1, .num 2, .num 1, .num 2, .num 3],
        [1, 2, 3, 4]) := by
  exact consultar_pagination fetchW 2 10 4 bodyW (by decide) (by decide)
    (by decide) (fun i _ _ => rfl) (by decide) (by decide)

/-- C4 counterexample: the aggregation step of
`coletar_por_assinatura` performs no deduplication: a shard whose
upstream response repeats one item (which carries a stable upstream
identifier, hence a well-defined composite key) yields two identical
records, whereas the deduplication described by the claim would keep
one; the aggregated output differs from its own deduplication. -/
theorem coletar_no_dedup_counterexample :
    (registros_brutos consultDup ["m"]).length = 2 ∧
    (dedupLastWins (registros_brutos consultDup ["m"])).length = 1 ∧
    registros_brutos consultDup ["m"] ≠
      dedupLastWins (registros_brutos consultDup ["m"]) :=
  ⟨rfl, rfl, fun h => absurd (congrArg List.length h) (by decide)⟩

/-- C4 amended: the aggregation step concatenates the per-shard record
lists in shard order with no deduplication; in particular aggregating
the same shard list twice yields every record twice instead of a
deduplicated set, and the step is deterministic in its inputs. -/
theorem registros_brutos_no_dedup
    (consult : String → Except Unit (List RawItem)) (codigos : List String) :
    registros_brutos consult (codigos ++ codigos) =
      registros_brutos consult codigos ++ registros_brutos consult codigos := by
  simp [registros_brutos]

/-- C5 counterexample: a failing page fetch is attempted exactly once
and the failure propagates immediately out of the page loop — there
is no retry: with an always-failing fetch the collector requests page
1 a single time and returns the error. -/
theorem consultar_no_retry_counterexample :
    consultar_pncp_por_municipio fetchFail 100 10 = (.error (), [1]) ∧
    (consultar_pncp_por_municipio fetchFail 100 10).2.count 1 = 1 :=
  ⟨rfl, rfl⟩

/-- C5 amended: when the fetch of a page fails (network error or
`raise_for_status` on an error response), the collector makes no
further request — neither a retry of that page nor any later page —
and the failure propagates out of the page loop at once; the only
mitigation lives at shard level, where `coletar_por_assinatura` turns
the propagated exception into an empty shard. -/
theorem consultar_error_propagates (fetch : Nat → Except Unit JVal)
    (tam fuel pagina : Nat) (h : fetch pagina = .error ()) :
    consultarAux fetch tam (fuel + 1) pagina = (.error (), [pagina]) := by
  show (match fetch pagina with
    | .error e => (Except.error e, [pagina])
    | .ok js => _) = _
  rw [h]

/-- C5 amended, witness: the always-failing fetch at page 1. -/
theorem consultar_error_propagates_witness :
    fetchFail 1 = Except.error () ∧
    consultarAux fetchFail 100 10 1 = (Except.error (), [1]) :=
  ⟨rfl, consultar_error_propagates fetchFail 100 9 1 rfl⟩

/-- C6 counterexample: when shard `a` raises, the aggregator continues
with the other shards (`b` still contributes its record) and the shard
contributes zero records — but no per-shard warning is surfaced: the
message log of the collection run is empty, contradicting the claim
that a warning is shown to the user. -/
theorem coletar_silent_failure_counterexample :
    consultW "a" = Except.error () ∧
    (coletar_por_assinatura searchLiteral consultW ["a", "b"] "").2 = [] ∧
    (coletar_por_assinatura searchLiteral consultW ["a", "b"] "").1.length = 1 :=
  ⟨rfl, rfl, rfl⟩

/-- C6 amended: if the collection of one shard fails entirely, that
shard contributes zero records and the remaining shards are collected
unaffected, their records appearing in the final result; the failure
is swallowed silently — no per-shard warning is surfaced (the message
log is empty). -/
theorem coletar_shard_isolation (search : String → String → Bool)
    (consult : String → Except Unit (List RawItem))
    (pre post : List String) (a q : String)
    (h : consult a = .error ()) :
    coletar_por_assinatura search consult (pre ++ a :: post) q =
      (filtrar search
        (registros_brutos consult pre ++ registros_brutos consult post) q,
        []) := by
  simp [coletar_por_assinatura, registros_brutos, h]

/-- C6 amended, witness: shard `a` fails between shards `b` and `c`. -/
theorem coletar_shard_isolation_witness :
    consultW "a" = Except.error () ∧
    coletar_por_assinatura searchLiteral consultW ["b", "a", "c"] "" =
      (filtrar searchLiteral
        (registros_brutos consultW ["b"] ++ registros_brutos consultW ["c"])
        "", []) :=
  ⟨rfl, coletar_shard_isolation searchLiteral consultW ["b"] ["c"] "a" "" rfl⟩

/-- Characterization of the embedded `str.isdigit()`. -/
theorem isdigitStr_iff (s : String) :
    isdigitStr s = true ↔ s ≠ "" ∧ ∀ c ∈ s.data, c.isDigit := by
  unfold isdigitStr
  rw [Bool.and_eq_true, Bool.not_eq_true', List.all_eq_true]
  constructor
  · rintro ⟨h1, h2⟩
    refine ⟨fun hs => ?_, h2⟩
    rw [hs] at h1
    exact absurd h1 (by decide)
  · rintro ⟨h1, h2⟩
    refine ⟨?_, h2⟩
    cases hE : s.isEmpty
    · rfl
    · exact absurd ((String.isEmpty_iff s).mp hE) h1

/-- A boolean `if` agrees with the propositional `if` of an equivalent
condition. -/
theorem bool_prop_ite_congr {α : Type} (b : Bool) (p : Prop) [Decidable p]
    (hb : b = true ↔ p) (x y : α) :
    (if b then x else y) = if p then x else y := by
  by_cases hp : p
  · simp [hp, hb.mpr hp]
  · have hB : b = false := by
      cases hC : b
      · rfl
      · exact absurd (hb.mp hC) hp
    simp [hp, hB]

/-- The source's structured-branch guard is equivalent to the amended
claim's condition. -/
theorem structuredCond_iff (cnpj ano seq : String) :
    (cnpj.length == 14 && isdigitStr ano && decide (seq ≠ "")) = true ↔
    (cnpj.length = 14 ∧ ano ≠ "" ∧ (∀ c ∈ ano.data, c.isDigit) ∧ seq ≠ "") := by
  rw [Bool.and_eq_true, Bool.and_eq_true, beq_iff_eq, isdigitStr_iff,
    decide_eq_true_iff]
  tauto

/-- C7 counterexample: an item whose entity identifier has 14
characters but is not numeric and whose year has two digits: the
source's link builder takes the structured branch and returns the
template URL, while the claim's precedence (14-character numeric
identifier, 4-digit year) would fall through to the raw-URL branch
and, with no URL field present, return the empty string. -/
theorem build_link_counterexample :
    _build_pncp_link itemC7 =
      "https://pncp.gov.br/app/editais/0123456789012A/24/7" ∧
    resolve_link_spec itemC7 = "" ∧
    _build_pncp_link itemC7 ≠ resolve_link_spec itemC7 :=
  ⟨rfl, rfl, by decide⟩

/-- C7 amended: the link resolver obeys the precedence of the claim
with the guard weakened to what the source checks: a 14-character
entity identifier (numeric or not), a year that is a non-empty string
of digits (of any length), and a non-empty sequence value produce the
canonical template URL; otherwise any raw URL field present is made
absolute against the fixed origin when relative and the legacy
`/app/compras/` and `/compras/` segments are rewritten to
`/app/editais/`; otherwise the result is the empty string. -/
theorem build_link_eq_spec_amended (item : RawItem) :
    _build_pncp_link item = resolve_link_spec_amended item := by
  unfold _build_pncp_link resolve_link_spec_amended
  exact bool_prop_ite_congr _ _ (structuredCond_iff _ _ _) _ _

/-- The executable substring scan agrees with list-infix. -/
theorem containsSub_iff (pat : List Char) :
    ∀ l : List Char, containsSub pat l = true ↔ pat <:+: l := by
  intro l
  induction l with
  | nil => simp [containsSub]
  | cons c rest ih =>
    simp [containsSub, ih, List.infix_cons_iff, List.isPrefixOf_iff_prefix]

/-- The case-insensitive containment test as a decidable
proposition. -/
theorem containsCI_eq_decide (hay n : String) :
    containsCI hay n = decide ((lowerStr n).data <:+: (lowerStr hay).data) := by
  by_cases hc : (lowerStr n).data <:+: (lowerStr hay).data
  · simp [containsCI, hc, (containsSub_iff _ _).mpr hc]
  · have hF : containsSub (lowerStr n).data (lowerStr hay).data = false := by
      cases hE : containsSub (lowerStr n).data (lowerStr hay).data
      · rfl
      · exact absurd ((containsSub_iff _ _).mp hE) hc
    simp [containsCI, hF, hc]

/-- C8 counterexample: the keyword `bc` is free of regex
metacharacters, so the regular-expression search of the pandas mask
finds it exactly where it occurs literally (here `searchLiteral`):
on a record whose title is `ab` and description `cd` the keyword
occurs in the concatenation of the two fields, so the filter of the
claim keeps the record, but the source tests the two columns
separately and discards it. -/
theorem filtrar_concat_counterexample :
    regexFree "bc" = true ∧
    filtrar searchLiteral [regC8] "bc" = [] ∧
    filtrar_spec [regC8] "bc" = [regC8] ∧
    filtrar searchLiteral [regC8] "bc" ≠ filtrar_spec [regC8] "bc" :=
  ⟨rfl, rfl, rfl, fun h => absurd (congrArg List.length h) (by decide)⟩

/-- C8 amended: the client-side filter applies the keyword to the
title field and to the description field separately — a record is
kept when either field matches — never to their concatenation; the
match itself is the case-insensitive regular-expression search of
pandas `str.contains` (abstracted as the `search` primitive and
equal to case-insensitive substring containment exactly when the
keyword is free of regex metacharacters); non-text cells never match;
when the keyword is absent, no record is filtered out. -/
theorem filtrar_eq_spec_amended (search : String → String → Bool)
    (regs : List Registro) (q : String) :
    filtrar search regs q = filtrar_spec_amended search regs q := by
  unfold filtrar filtrar_spec_amended
  by_cases h : pyStrip q = ""
  · simp [h]
  · simp only [beq_iff_eq, h, if_false]
    refine List.filter_congr (fun r _ => ?_)
    unfold rowMatches cellMatches
    cases hT : filterCell r.Titulo <;> cases hO : filterCell r.Objeto <;>
      simp [hT, hO, Option.any]

/-- C9: after every insertion attempt the selection holds at most 25
entries with pairwise distinct codes (the invariant is preserved by
`_add_municipio_by_name`); an attempt to add to a selection of 25
entries is rejected and leaves the selection exactly unchanged; an
attempt whose resolved municipality code is already present is
rejected and leaves the selection exactly unchanged; and every
attempt either leaves the selection unchanged or appends exactly one
entry whose code was not yet selected. -/
theorem add_municipio_invariant (nome : String) (uf : Option String)
    (df : List PncpRow) (sel : List Municipio)
    (hlen : sel.length ≤ 25)
    (hnodup : (sel.map (fun m => m.codigo_pncp)).Nodup) :
    ((_add_municipio_by_name nome uf df sel).length ≤ 25 ∧
      ((_add_municipio_by_name nome uf df sel).map
        (fun m => m.codigo_pncp)).Nodup) ∧
    (sel.length = 25 → _add_municipio_by_name nome uf df sel = sel) ∧
    (∀ row, resolveMunicipio nome uf df = some row →
      row.codigo_pncp ∈ sel.map (fun x => x.codigo_pncp) →
      _add_municipio_by_name nome uf df sel = sel) ∧
    (_add_municipio_by_name nome uf df sel = sel ∨
      ∃ m, _add_municipio_by_name nome uf df sel = sel ++ [m] ∧
        m.codigo_pncp ∉ sel.map (fun x => x.codigo_pncp) ∧
        sel.length < 25) := by
  unfold _add_municipio_by_name
  by_cases h0 : (nome == "") = true
  · rw [if_pos h0]
    exact ⟨⟨hlen, hnodup⟩, fun _ => rfl, fun _ _ _ => rfl, .inl rfl⟩
  · rw [if_neg h0]
    by_cases h1 : 25 ≤ sel.length
    · rw [if_pos h1]
      exact ⟨⟨hlen, hnodup⟩, fun _ => rfl, fun _ _ _ => rfl, .inl rfl⟩
    · rw [if_neg h1]
      have hlt : sel.length < 25 := by omega
      cases hres : resolveMunicipio nome uf df with
      | none =>
        simp only [hres]
        exact ⟨⟨hlen, hnodup⟩, fun _ => trivial,
          fun row hr hm => absurd hr (by simp), .inl trivial⟩
      | some row =>
        simp only [hres]
        by_cases hmem : row.codigo_pncp ∈ sel.map (fun m => m.codigo_pncp)
        · rw [if_pos hmem]
          refine ⟨⟨hlen, hnodup⟩, fun _ => rfl, fun _ _ _ => rfl, .inl rfl⟩
        · rw [if_neg hmem]
          refine ⟨⟨?_, ?_⟩, fun heq => (h1 (by omega)).elim, ?_,
            .inr ⟨_, rfl, hmem, hlt⟩⟩
          · simp only [List.length_append, List.length_cons, List.length_nil]
            omega
          · rw [List.map_append]
            simp [List.nodup_append, hnodup, hmem]
          · intro rowB hr hm
            cases Option.some.inj hr
            exact absurd hm hmem

/-- C9 witness: a selection already holding the municipality with
code `123` against a lookup table that resolves the name `Alfa` to
that same code: the invariant hypotheses hold and the duplicate-code
insertion attempt leaves the selection exactly unchanged. -/
theorem add_municipio_invariant_witness :
    sel9.length ≤ 25 ∧
    (sel9.map (fun m => m.codigo_pncp)).Nodup ∧
    resolveMunicipio "Alfa" none df9 =
      some (PncpRow.mk "Alfa" "123" "SP" "alfa") ∧
    _add_municipio_by_name "Alfa" none df9 sel9 = sel9 := by
  refine ⟨by decide, by decide, by decide, ?_⟩
  exact (add_municipio_invariant "Alfa" none df9 sel9 (by decide)
      (by decide)).2.2.1 (PncpRow.mk "Alfa" "123" "SP" "alfa")
      (by decide) (by decide)
